import Mathlib

/-!
Shallow embedding of `src/catan/grid.py` (module `hexgrid`), a coordinate
geometry library for a 19-tile Settlers-of-Catan hex board.

The Python module stores coordinates as plain tuples of ints, e.g. `(9, 3)`.
We model the Python values flowing through the module with `Val`: either an
`int` (the module uses the int sentinel `-1` for a failed tile lookup) or a
tuple of ints, modelled as `List Int`.  Python tuple semantics are embedded
faithfully: `tuple + tuple` is concatenation, `tuple - tuple` raises
`TypeError`, unpacking `a, b = t` raises `ValueError` unless `t` has length 2,
and `in` on a set is structural equality membership.  Functions that can raise
return `Except PyError`.
-/

set_option maxRecDepth 1000000

deriving instance DecidableEq for Except

namespace Catan

/-- A Python value appearing in the grid module: an int or a tuple of ints
(modelled as a list). -/
inductive Val where
  | int : Int → Val
  | tup : List Int → Val
  deriving DecidableEq, Repr

/-- Python exception kinds raised by the grid module. -/
inductive PyError where
  | typeError
  | valueError
  | exception
  deriving DecidableEq, Repr

/-- The 19-entry tile table `_tile_id_to_coord`, in source insertion order
(1-19 counter-clockwise starting from top-left). -/
def tileIdToCoordTable : List (Int × List Int) :=
  [(1, [9, 3]), (12, [13, 3]), (11, [17, 3]),
   (2, [7, 5]), (13, [11, 5]), (18, [15, 5]), (10, [19, 5]),
   (3, [5, 7]), (14, [9, 7]), (19, [13, 7]), (17, [17, 7]), (9, [21, 7]),
   (4, [7, 9]), (15, [11, 9]), (16, [15, 9]), (8, [19, 9]),
   (5, [9, 11]), (6, [13, 11]), (7, [17, 11])]

/-- The `_tile_tile_offsets` dict: tile_coord - tile_coord, insertion order. -/
def tile_tile_offsets : List (List Int × String) :=
  [([-2, -2], "NW"), ([-4, 0], "W"), ([-2, 2], "SW"),
   ([2, 2], "SE"), ([4, 0], "E"), ([2, -2], "NE")]

/-- The `_tile_node_offsets` dict: node_coord - tile_coord, insertion order. -/
def tile_node_offsets : List (List Int × String) :=
  [([0, -1], "N"), ([-2, -1], "NW"), ([-2, 1], "SW"),
   ([0, 1], "S"), ([2, 1], "SE"), ([2, -1], "NE")]

/-- The `_tile_edge_offsets` dict: edge_coord - tile_coord, insertion order. -/
def tile_edge_offsets : List (List Int × String) :=
  [([-1, -1], "NW"), ([-2, 0], "W"), ([-1, 1], "SW"),
   ([1, 1], "SE"), ([2, 0], "E"), ([1, -1], "NE")]

/-- Ordered dictionary lookup (Python `dict[key]` restricted to present keys:
`none` models a `KeyError` being raised at the lookup site). -/
def lookupTable {α β : Type} [DecidableEq α] : List (α × β) → α → Option β
  | [], _ => none
  | (k, v) :: rest, key => if k = key then some v else lookupTable rest key

/-- Python `+` with a tuple right operand, keeping the raw value: a tuple left
operand concatenates; an int left operand raises TypeError. -/
def pyAdd : Val → List Int → Except PyError Val
  | Val.tup t, o => Except.ok (Val.tup (t ++ o))
  | Val.int _, _ => Except.error PyError.typeError

/-- Python `+` with a tuple right operand where the caller uses the result as a
coordinate: same semantics as `pyAdd`, returning the concatenated tuple. -/
def pyAddT : Val → List Int → Except PyError (List Int)
  | Val.tup t, o => Except.ok (t ++ o)
  | Val.int _, _ => Except.error PyError.typeError

/-- Python `-` on grid values: int - int subtracts; tuples do not support
subtraction, so any tuple operand raises TypeError. -/
def pySub : Val → Val → Except PyError Val
  | Val.int a, Val.int b => Except.ok (Val.int (a - b))
  | _, _ => Except.error PyError.typeError

/-- Python `in` on a set of tuples: structural equality membership; an int is
never equal to a tuple. -/
def pyMem (v : Val) (s : List (List Int)) : Bool :=
  match v with
  | Val.tup t => s.contains t
  | Val.int _ => false

/-- `tile_id_to_coord`: dict lookup; an unknown id hits the KeyError handler,
which logs and returns the int sentinel `-1`. -/
def tile_id_to_coord (tile_id : Int) : Val :=
  match lookupTable tileIdToCoordTable tile_id with
  | some c => Val.tup c
  | none => Val.int (-1)

/-- Loop body of `tile_id_from_coord`: linear scan of the table comparing each
stored coordinate with the argument by Python `==`.  On a miss the source
builds an Exception message via `hex(coord)`: `hex` on a tuple raises
TypeError before the Exception is constructed; on an int the Exception is
raised. -/
def tile_id_from_coord_aux : List (Int × List Int) → Val → Except PyError Int
  | [], Val.int _ => Except.error PyError.exception
  | [], Val.tup _ => Except.error PyError.typeError
  | (i, c) :: rest, coord =>
    if Val.tup c = coord then Except.ok i else tile_id_from_coord_aux rest coord

/-- `tile_id_from_coord`: inverse lookup over the tile table. -/
def tile_id_from_coord (coord : Val) : Except PyError Int :=
  tile_id_from_coord_aux tileIdToCoordTable coord

/-- The dict keys of the tile table, in iteration order. -/
def legal_tile_ids_list : List Int := tileIdToCoordTable.map Prod.fst

/-- `legal_tile_ids`: the set of the 19 tile table keys. -/
def legal_tile_ids : Finset Int := legal_tile_ids_list.toFinset

/-- `legal_tile_coords`: the tile table values (the set is their dedup; they
are pairwise distinct, so the list models the set faithfully). -/
def legal_tile_coords : List (List Int) := tileIdToCoordTable.map Prod.snd

/-- `tile_tile_offset_to_direction`: dict lookup with KeyError handler.  On a
KeyError the handler formats the offset with `'{:x}'.format(offset)` before
logging: that call works for an int (so the sentinel string ZZ is returned)
but raises TypeError for a tuple, so an invalid tuple offset raises. -/
def tile_tile_offset_to_direction (offset : Val) : Except PyError String :=
  match offset with
  | Val.tup t =>
    match lookupTable tile_tile_offsets t with
    | some d => Except.ok d
    | none => Except.error PyError.typeError
  | Val.int _ => Except.ok "ZZ"

/-- `tile_node_offset_to_direction`: same shape as the tile-tile version. -/
def tile_node_offset_to_direction (offset : Val) : Except PyError String :=
  match offset with
  | Val.tup t =>
    match lookupTable tile_node_offsets t with
    | some d => Except.ok d
    | none => Except.error PyError.typeError
  | Val.int _ => Except.ok "ZZ"

/-- `tile_edge_offset_to_direction`: same shape as the tile-tile version. -/
def tile_edge_offset_to_direction (offset : Val) : Except PyError String :=
  match offset with
  | Val.tup t =>
    match lookupTable tile_edge_offsets t with
    | some d => Except.ok d
    | none => Except.error PyError.typeError
  | Val.int _ => Except.ok "ZZ"

/-- Loop of `tile_id_in_direction` over `_tile_tile_offsets.items()`: for the
matching direction, compute `coord_from + offset` (Python tuple concatenation)
and test membership in `legal_tile_coords()`. -/
def tile_id_in_direction_aux (coord_from : Val) (direction : String) :
    List (List Int × String) → Except PyError (Option Int)
  | [] => Except.ok none
  | (offset, dirn) :: rest =>
    if dirn = direction then
      match pyAdd coord_from offset with
      | Except.error e => Except.error e
      | Except.ok coord_to =>
        if pyMem coord_to legal_tile_coords then
          match tile_id_from_coord coord_to with
          | Except.error e => Except.error e
          | Except.ok i => Except.ok (some i)
        else tile_id_in_direction_aux coord_from direction rest
    else tile_id_in_direction_aux coord_from direction rest

/-- `tile_id_in_direction`: returns the neighboring tile id in the given
direction, or `none` when no legal tile is found there. -/
def tile_id_in_direction (from_tile_id : Int) (direction : String) :
    Except PyError (Option Int) :=
  tile_id_in_direction_aux (tile_id_to_coord from_tile_id) direction
    tile_tile_offsets

/-- `direction_to_tile`: coordinate difference of the two tiles resolved
through the tile-tile offset table. -/
def direction_to_tile (from_tile_id to_tile_id : Int) : Except PyError String :=
  match pySub (tile_id_to_coord to_tile_id) (tile_id_to_coord from_tile_id) with
  | Except.error e => Except.error e
  | Except.ok diff => tile_tile_offset_to_direction diff

/-- `edges_touching_tile`: append `coord + offset` for each of the six edge
offsets, in dict iteration order. -/
def edges_touching_tile (tile_id : Int) : Except PyError (List (List Int)) :=
  (tile_edge_offsets.map Prod.fst).mapM (pyAddT (tile_id_to_coord tile_id))

/-- `nodes_touching_tile`: append `coord + offset` for each of the six node
offsets, in dict iteration order. -/
def nodes_touching_tile (tile_id : Int) : Except PyError (List (List Int)) :=
  (tile_node_offsets.map Prod.fst).mapM (pyAddT (tile_id_to_coord tile_id))

/-- `nodes_touching_edge`: unpack `a, b = edge_coord` (ValueError unless the
tuple has exactly two items, TypeError on an int), then branch on parity of
the first component. -/
def nodes_touching_edge (edge_coord : Val) : Except PyError (List (List Int)) :=
  match edge_coord with
  | Val.tup [a, b] =>
    if a % 2 = 0 then Except.ok [[a + 1, b], [a - 1, b]]
    else Except.ok [[a, b - 1], [a, b + 1]]
  | Val.tup _ => Except.error PyError.valueError
  | Val.int _ => Except.error PyError.typeError

/-- `legal_edge_coords`: union over all legal tiles of their touching edges,
collected into a set. -/
def legal_edge_coords : Except PyError (Finset (List Int)) :=
  legal_tile_ids_list.foldlM
    (fun s tid =>
      match edges_touching_tile tid with
      | Except.error e => Except.error e
      | Except.ok es => Except.ok (es.foldl (fun s2 e => insert e s2) s))
    (∅ : Finset (List Int))

/-- `legal_node_coords`: union over all legal tiles of their touching nodes,
collected into a set. -/
def legal_node_coords : Except PyError (Finset (List Int)) :=
  legal_tile_ids_list.foldlM
    (fun s tid =>
      match nodes_touching_tile tid with
      | Except.error e => Except.error e
      | Except.ok ns => Except.ok (ns.foldl (fun s2 n => insert n s2) s))
    (∅ : Finset (List Int))

/-- Loop of `coastal_edges` over the touching edges: `edge_coord - tile_coord`
is Python tuple subtraction. -/
def coastal_edges_aux (tile_id : Int) (tile_coord : Val) :
    List (List Int) → Except PyError (List (List Int))
  | [] => Except.ok []
  | e :: rest =>
    match pySub (Val.tup e) tile_coord with
    | Except.error err => Except.error err
    | Except.ok diff =>
      match tile_edge_offset_to_direction diff with
      | Except.error err => Except.error err
      | Except.ok dirn =>
        match tile_id_in_direction tile_id dirn with
        | Except.error err => Except.error err
        | Except.ok r =>
          match coastal_edges_aux tile_id tile_coord rest with
          | Except.error err => Except.error err
          | Except.ok tail =>
            Except.ok (if r = none then e :: tail else tail)

/-- `coastal_edges`: the touching edges whose direction has no tile beyond. -/
def coastal_edges (tile_id : Int) : Except PyError (List (List Int)) :=
  match edges_touching_tile tile_id with
  | Except.error e => Except.error e
  | Except.ok es => coastal_edges_aux tile_id (tile_id_to_coord tile_id) es

/-- Loop of `edge_coord_in_direction` over the touching edges, comparing the
resolved direction with the argument (which may be Python None). -/
def edge_coord_in_direction_aux (tile_coord : Val) (direction : Option String) :
    List (List Int) → Except PyError (List Int)
  | [] => Except.error PyError.valueError
  | e :: rest =>
    match pySub (Val.tup e) tile_coord with
    | Except.error err => Except.error err
    | Except.ok diff =>
      match tile_edge_offset_to_direction diff with
      | Except.error err => Except.error err
      | Except.ok d =>
        if some d = direction then Except.ok e
        else edge_coord_in_direction_aux tile_coord direction rest

/-- `edge_coord_in_direction`: the touching edge lying in the given direction;
raises ValueError when none matches. -/
def edge_coord_in_direction (tile_id : Int) (direction : Option String) :
    Except PyError (List Int) :=
  match edges_touching_tile tile_id with
  | Except.error e => Except.error e
  | Except.ok es =>
    edge_coord_in_direction_aux (tile_id_to_coord tile_id) direction es

/-- Loop of `node_coord_in_direction` over the touching nodes. -/
def node_coord_in_direction_aux (tile_coord : Val) (direction : Option String) :
    List (List Int) → Except PyError (List Int)
  | [] => Except.error PyError.valueError
  | n :: rest =>
    match pySub (Val.tup n) tile_coord with
    | Except.error err => Except.error err
    | Except.ok diff =>
      match tile_node_offset_to_direction diff with
      | Except.error err => Except.error err
      | Except.ok d =>
        if some d = direction then Except.ok n
        else node_coord_in_direction_aux tile_coord direction rest

/-- `node_coord_in_direction`: the touching node lying in the given direction;
raises ValueError when none matches. -/
def node_coord_in_direction (tile_id : Int) (direction : Option String) :
    Except PyError (List Int) :=
  match nodes_touching_tile tile_id with
  | Except.error e => Except.error e
  | Except.ok ns =>
    node_coord_in_direction_aux (tile_id_to_coord tile_id) direction ns

/-- Module constant `EDGE = 0`. -/
def EDGE : Int := 0

/-- Module constant `NODE = 1`. -/
def NODE : Int := 1

/-- Module constant `TILE = 2`. -/
def TILE : Int := 2

/-- `from_location`: public dispatcher over the hexgrid type.  The TILE
branch raises ValueError when a direction is supplied; an unrecognized type
logs a warning and returns Python None (modelled as `Option.none`). -/
def from_location (hexgrid_type : Int) (tile_id : Int)
    (direction : Option String) : Except PyError (Option Val) :=
  if hexgrid_type = TILE then
    match direction with
    | some _ => Except.error PyError.valueError
    | none => Except.ok (some (tile_id_to_coord tile_id))
  else if hexgrid_type = NODE then
    match node_coord_in_direction tile_id direction with
    | Except.error e => Except.error e
    | Except.ok c => Except.ok (some (Val.tup c))
  else if hexgrid_type = EDGE then
    match edge_coord_in_direction tile_id direction with
    | Except.error e => Except.error e
    | Except.ok c => Except.ok (some (Val.tup c))
  else Except.ok none

/-- The edge set computed by `legal_edge_coords` (which never raises). -/
def edge_set : Finset (List Int) := legal_edge_coords.toOption.getD ∅

/-- The node set computed by `legal_node_coords` (which never raises). -/
def node_set : Finset (List Int) := legal_node_coords.toOption.getD ∅

/-- A key absent from the first components of a table makes `lookupTable`
return `none`. -/
theorem lookupTable_eq_none {α β : Type} [DecidableEq α] :
    ∀ (tbl : List (α × β)) (k : α), k ∉ tbl.map Prod.fst →
      lookupTable tbl k = none
  | [], _, _ => rfl
  | (a, _) :: rest, k, h => by
    simp only [List.map_cons, List.mem_cons, not_or] at h
    simp only [lookupTable]
    rw [if_neg (fun he => h.1 he.symm)]
    exact lookupTable_eq_none rest k h.2

/-- A key present among the first components of a table makes `lookupTable`
return some value. -/
theorem lookupTable_mem {α β : Type} [DecidableEq α] :
    ∀ (tbl : List (α × β)) (k : α), k ∈ tbl.map Prod.fst →
      ∃ v, lookupTable tbl k = some v
  | [], _, h => by simp at h
  | (a, b) :: rest, k, h => by
    by_cases hak : a = k
    · exact ⟨b, by simp [lookupTable, hak]⟩
    · have hrest : k ∈ rest.map Prod.fst := by
        simp only [List.map_cons, List.mem_cons] at h
        rcases h with h | h
        · exact absurd h.symm hak
        · exact h
      obtain ⟨v, hv⟩ := lookupTable_mem rest k hrest
      exact ⟨v, by simp [lookupTable, hak, hv]⟩

/-- C1: tile 1 maps to (9,3) and tile 12 to (13,3), and offset (4,0) resolves
to direction E, as the claim states; but `tile_id_in_direction 1 "E"` returns
`none` rather than tile 12, because the source computes `coord_from + offset`
on Python tuples, which concatenates them to the 4-tuple (9,3,4,0) — never a
legal tile coordinate.  `tile_id_in_direction 1 "W"` also returns `none`, for
the same reason rather than because tile 1 is on the board edge. -/
theorem c1_code_eval :
    tile_id_to_coord 1 = Val.tup [9, 3] ∧
    tile_id_to_coord 12 = Val.tup [13, 3] ∧
    tile_tile_offset_to_direction (Val.tup [4, 0]) = Except.ok "E" ∧
    tile_id_in_direction 1 "E" = Except.ok none ∧
    tile_id_in_direction 1 "W" = Except.ok none := by
  refine ⟨by decide, by decide, by decide, by decide, by decide⟩

/-- C2: `legal_tile_ids` does have 19 elements, but `legal_edge_coords` and
`legal_node_coords` each have 114 elements, not 72 and 54: every
`coord + offset` concatenates two tuples into a distinct 4-tuple, so nothing
is ever shared between tiles and the union has 19 * 6 members. -/
theorem c2_code_eval :
    legal_tile_ids.card = 19 ∧
    legal_edge_coords = Except.ok edge_set ∧ edge_set.card = 114 ∧
    legal_node_coords = Except.ok node_set ∧ node_set.card = 114 := by
  exact ⟨by decide, by rfl, by rfl, by rfl, by rfl⟩

/-- C3: for every legal tile id, converting to its coordinate and back yields
the same id, and no two tiles share a coordinate (the table's second
components are pairwise distinct). -/
theorem c3_round_trip :
    (∀ tid ∈ legal_tile_ids,
       tile_id_from_coord (tile_id_to_coord tid) = Except.ok tid) ∧
    (tileIdToCoordTable.map Prod.snd).Nodup := by
  exact ⟨by decide, by decide⟩

/-- C3 witness: the round trip at tile id 1. -/
theorem c3_round_trip_witness :
    1 ∈ legal_tile_ids ∧
    tile_id_from_coord (tile_id_to_coord 1) = Except.ok 1 :=
  ⟨by decide, c3_round_trip.1 1 (by decide)⟩

/-- C4: `edges_touching_tile 1` and `nodes_touching_tile 1` each return 6
distinct values, but they are 4-tuples obtained by tuple concatenation, not
the componentwise sums the claim requires (e.g. (9,3,-1,-1) instead of
(8,2)). -/
theorem c4_code_eval :
    edges_touching_tile 1 = Except.ok
      [[9, 3, -1, -1], [9, 3, -2, 0], [9, 3, -1, 1],
       [9, 3, 1, 1], [9, 3, 2, 0], [9, 3, 1, -1]] ∧
    nodes_touching_tile 1 = Except.ok
      [[9, 3, 0, -1], [9, 3, -2, -1], [9, 3, -2, 1],
       [9, 3, 0, 1], [9, 3, 2, 1], [9, 3, 2, -1]] := by
  exact ⟨by decide, by decide⟩

/-- C5: `coastal_edges` raises TypeError for every legal tile, because it
computes `edge_coord - tile_coord` and Python tuples do not support
subtraction; it never returns the coastal subset. -/
theorem c5_code_eval :
    ∀ tid ∈ legal_tile_ids, coastal_edges tid = Except.error PyError.typeError := by
  decide

/-- C5 witness: `coastal_edges` raises at tile 1. -/
theorem c5_code_eval_witness :
    1 ∈ legal_tile_ids ∧ coastal_edges 1 = Except.error PyError.typeError :=
  ⟨by decide, c5_code_eval 1 (by decide)⟩

/-- C6: for every integer pair (a,b), `nodes_touching_edge` returns exactly
(a+1,b) and (a-1,b) when a is even, and exactly (a,b-1) and (a,b+1) when a is
odd, also outside the legal board. -/
theorem c6_nodes_touching_edge :
    ∀ a b : Int, nodes_touching_edge (Val.tup [a, b]) =
      Except.ok (if a % 2 = 0 then [[a + 1, b], [a - 1, b]]
                 else [[a, b - 1], [a, b + 1]]) := by
  intro a b
  by_cases h : a % 2 = 0 <;> simp [nodes_touching_edge, h]

/-- C7: every member of `legal_edge_coords` is a 4-tuple (a tuple
concatenation), so `nodes_touching_edge` raises ValueError on each of them
when unpacking `a, b = edge_coord`, instead of returning two legal nodes. -/
theorem c7_code_eval :
    legal_edge_coords = Except.ok edge_set ∧
    ∀ e ∈ edge_set,
      nodes_touching_edge (Val.tup e) = Except.error PyError.valueError := by
  exact ⟨by rfl, by decide⟩

/-- C7 witness: the edge value (9,3,-1,-1) is in the computed edge set and
`nodes_touching_edge` raises ValueError on it. -/
theorem c7_code_eval_witness :
    [9, 3, -1, -1] ∈ edge_set ∧
    nodes_touching_edge (Val.tup [9, 3, -1, -1]) =
      Except.error PyError.valueError :=
  ⟨by decide, c7_code_eval.2 [9, 3, -1, -1] (by decide)⟩

/-- C8 counterexample: for the illegal tile id 0, `tile_id_to_coord` does not
fail; it logs and returns the int sentinel -1, contradicting the claim that
it fails for every id outside the 19 legal ones. -/
theorem c8_counterexample : tile_id_to_coord 0 = Val.int (-1) := by decide

/-- C8 amended: `tile_id_to_coord` succeeds (returns a tuple from the table)
for exactly the 19 legal ids, and returns the sentinel -1, not an error, for
every other id; `tile_tile_offset_to_direction` raises TypeError for every
tuple offset outside the six valid vectors (via formatting the tuple in the
KeyError handler), but returns the sentinel string ZZ for an int offset. -/
theorem c8_amended (tid : Int) (o : List Int) (n : Int) :
    (tid ∈ legal_tile_ids → ∃ c, tile_id_to_coord tid = Val.tup c) ∧
    (tid ∉ legal_tile_ids → tile_id_to_coord tid = Val.int (-1)) ∧
    (o ∉ tile_tile_offsets.map Prod.fst →
      tile_tile_offset_to_direction (Val.tup o) =
        Except.error PyError.typeError) ∧
    tile_tile_offset_to_direction (Val.int n) = Except.ok "ZZ" := by
  refine ⟨fun hmem => ?_, fun hnot => ?_, fun hoff => ?_, rfl⟩
  · have hlist : tid ∈ tileIdToCoordTable.map Prod.fst :=
      List.mem_toFinset.mp hmem
    obtain ⟨c, hc⟩ := lookupTable_mem tileIdToCoordTable tid hlist
    exact ⟨c, by simp [tile_id_to_coord, hc]⟩
  · have hlist : tid ∉ tileIdToCoordTable.map Prod.fst :=
      fun h => hnot (List.mem_toFinset.mpr h)
    have hnone := lookupTable_eq_none tileIdToCoordTable tid hlist
    simp [tile_id_to_coord, hnone]
  · have hnone := lookupTable_eq_none tile_tile_offsets o hoff
    simp [tile_tile_offset_to_direction, hnone]

/-- C8 witness: the amended statement at the legal id 1, the illegal id 20,
the invalid tuple offset (5,5) and the int offset 7. -/
theorem c8_amended_witness :
    (∃ c, tile_id_to_coord 1 = Val.tup c) ∧
    tile_id_to_coord 20 = Val.int (-1) ∧
    tile_tile_offset_to_direction (Val.tup [5, 5]) =
      Except.error PyError.typeError ∧
    tile_tile_offset_to_direction (Val.int 7) = Except.ok "ZZ" :=
  ⟨(c8_amended 1 [5, 5] 7).1 (by decide),
   (c8_amended 20 [5, 5] 7).2.1 (by decide),
   (c8_amended 20 [5, 5] 7).2.2.1 (by decide),
   (c8_amended 20 [5, 5] 7).2.2.2⟩

/-- C9: `direction_to_tile` raises TypeError for every pair of legal tiles,
adjacent or not, because `coord_to - coord_from` is Python tuple subtraction;
in particular it fails on the adjacent pair (1, 12) instead of returning E. -/
theorem c9_code_eval :
    (∀ t ∈ legal_tile_ids, ∀ u ∈ legal_tile_ids,
       direction_to_tile t u = Except.error PyError.typeError) ∧
    direction_to_tile 1 12 = Except.error PyError.typeError := by
  exact ⟨by decide, by decide⟩

/-- C9 witness: the failure at the adjacent pair (1, 12). -/
theorem c9_code_eval_witness :
    1 ∈ legal_tile_ids ∧ 12 ∈ legal_tile_ids ∧
    direction_to_tile 1 12 = Except.error PyError.typeError :=
  ⟨by decide, by decide, (c9_code_eval.1 1 (by decide)) 12 (by decide)⟩

/-- C10: `from_location` with the TILE type and a non-None direction raises
ValueError for every tile id and direction; with a type other than TILE,
NODE and EDGE it returns Python None for all arguments. -/
theorem c10_from_location :
    (∀ (tid : Int) (d : String),
       from_location TILE tid (some d) = Except.error PyError.valueError) ∧
    (∀ (ht tid : Int) (d : Option String),
       ht ≠ TILE → ht ≠ NODE → ht ≠ EDGE →
       from_location ht tid d = Except.ok none) := by
  constructor
  · intro tid d
    simp [from_location]
  · intro ht tid d h2 h1 h0
    simp [from_location, h2, h1, h0]

/-- C10 witness: the TILE branch at (5, E) and the unsupported type 7. -/
theorem c10_from_location_witness :
    from_location TILE 5 (some "E") = Except.error PyError.valueError ∧
    from_location 7 1 none = Except.ok none :=
  ⟨c10_from_location.1 5 "E",
   c10_from_location.2 7 1 none (by decide) (by decide) (by decide)⟩

end Catan
